import Mathlib

/-!
# Verification of the radiance Vulkan rendering engine core

A shallow embedding of `radiance/src/rendering/vulkan/vulkan_engine.rs`:
the `SwapChain` lifecycle (construction, teardown order, counting
invariants), the per-drawable submit-and-present step (`render_object`),
command-buffer recording (`create_command_buffers`), and the per-frame
orchestration (`render`).

Driver handles are modelled as naturals; every fallible driver call is an
oracle supplied as input (an `Except` value or an oracle function), so that
theorems quantify over all driver behaviours.  Rust panics (`unwrap`,
out-of-bounds indexing) are modelled as an explicit `panicked` outcome
distinct from recoverable `Err` results.
-/

namespace Radiance

/-- Driver-reported error codes.  `outOfDate` models
`vk::Result::ERROR_OUT_OF_DATE_KHR`, which `render_object` treats specially;
every other error code is `other n`. -/
inductive VkErr where
  | outOfDate
  | other (code : Nat)
deriving DecidableEq, Repr

/-- Sequential fallible map, mirroring the Rust
`iter().map(..).collect::<Result<Vec<_>, _>>()` pattern: stops at the first
error, otherwise returns the results in order. -/
def mapMExcept (f : α → Except VkErr β) : List α → Except VkErr (List β)
  | [] => .ok []
  | a :: as =>
    match f a with
    | .error e => .error e
    | .ok b =>
      match mapMExcept f as with
      | .error e => .error e
      | .ok bs => .ok (b :: bs)

/-- The `SwapChain` struct of `vulkan_engine.rs`: the chain handle, the images
retrieved from it, one collection each of image views and framebuffers, and
the render pass / pipeline layout / pipeline built for it.  The weak device
reference is not stored; whether it can still be upgraded is an input of the
teardown function. -/
structure SwapChain where
  handle : Nat
  images : List Nat
  image_views : List Nat
  render_pass : Nat
  pipeline_layout : Nat
  pipeline : Nat
  framebuffers : List Nat
deriving DecidableEq, Repr

/-- One destroy call issued against the device (or, for the chain handle,
against the swapchain extension). -/
inductive DestroyCall where
  | framebuffer (h : Nat)
  | pipelineLayout (h : Nat)
  | renderPass (h : Nat)
  | pipeline (h : Nat)
  | imageView (h : Nat)
  | swapchain (h : Nat)
deriving DecidableEq, Repr

/-- Append one destroy call to the driver's call log. -/
def issue (log : List DestroyCall) (c : DestroyCall) : List DestroyCall :=
  log ++ [c]

/-- The `Drop` impl of `SwapChain` (vulkan_engine.rs lines 427-446).
`deviceAlive` is the outcome of `self.device.upgrade()`: if the weak device
reference is dead the `unwrap` panics, modelled as `none`.  Otherwise the
destroy calls are issued in the source order: each framebuffer, then the
pipeline layout, then the render pass, then the pipeline, then each image
view, then the chain handle. -/
def SwapChain.drop (sc : SwapChain) (deviceAlive : Bool) (log : List DestroyCall) :
    Option (List DestroyCall) :=
  if deviceAlive then
    let log := sc.framebuffers.foldl (fun l fb => issue l (.framebuffer fb)) log
    let log := issue log (.pipelineLayout sc.pipeline_layout)
    let log := issue log (.renderPass sc.render_pass)
    let log := issue log (.pipeline sc.pipeline)
    let log := sc.image_views.foldl (fun l v => issue l (.imageView v)) log
    some (issue log (.swapchain sc.handle))
  else
    none

/-- The teardown order exactly as the spec words it: all framebuffers, then
the pipeline, then the pipeline layout, then the render pass, then all image
views, then the chain handle.  Given only so it can be compared against what
`SwapChain.drop` actually issues. -/
def specTeardownOrder (sc : SwapChain) : List DestroyCall :=
  sc.framebuffers.map .framebuffer
    ++ [.pipeline sc.pipeline, .pipelineLayout sc.pipeline_layout,
        .renderPass sc.render_pass]
    ++ sc.image_views.map .imageView
    ++ [.swapchain sc.handle]

/-- Driver oracle for `SwapChain::new`: the outcome of each fallible creation
call it performs, in source order.  `viewOf` and `framebufferOf` are per-item
oracles for the two creation-helper loops. -/
structure BuildEnv where
  createSwapchain : Except VkErr Nat
  getImages : Except VkErr (List Nat)
  viewOf : Nat → Except VkErr Nat
  createRenderPass : Except VkErr Nat
  createPipelineLayout : Except VkErr Nat
  createPipeline : Except VkErr (List Nat)
  framebufferOf : Nat → Except VkErr Nat

/-- Outcome of a `SwapChain::new` call: a Rust panic, a propagated driver
error, or a fully built chain. -/
inductive BuildResult where
  | panicked
  | failed (e : VkErr)
  | built (sc : SwapChain)
deriving DecidableEq, Repr

/-- Modelled from the spec: `creation_helpers::create_image_views` is not in
the source tree; per spec section 4.3 step 2 it creates one image view per
swapchain image, propagating the first driver error. -/
def create_image_views (viewOf : Nat → Except VkErr Nat) (images : List Nat) :
    Except VkErr (List Nat) :=
  mapMExcept viewOf images

/-- Modelled from the spec: `creation_helpers::create_framebuffers` is not in
the source tree; per spec section 4.3 step 5 it creates one framebuffer per
image view, propagating the first driver error. -/
def create_framebuffers (framebufferOf : Nat → Except VkErr Nat)
    (image_views : List Nat) : Except VkErr (List Nat) :=
  mapMExcept framebufferOf image_views

/-- `SwapChain::new` (vulkan_engine.rs lines 374-425).  `deviceAlive` is the
outcome of `device.upgrade()`; its `unwrap` panics when the weak reference is
dead.  The creation calls run in source order, each `?` propagating the
driver error.  `create_pipeline(..)?[0]` indexes the returned vector, a panic
when it is empty. -/
def SwapChain.new (deviceAlive : Bool) (env : BuildEnv) : BuildResult :=
  if deviceAlive then
    match env.createSwapchain with
    | .error e => .failed e
    | .ok handle =>
      match env.getImages with
      | .error e => .failed e
      | .ok images =>
        match create_image_views env.viewOf images with
        | .error e => .failed e
        | .ok image_views =>
          match env.createRenderPass with
          | .error e => .failed e
          | .ok render_pass =>
            match env.createPipelineLayout with
            | .error e => .failed e
            | .ok pipeline_layout =>
              match env.createPipeline with
              | .error e => .failed e
              | .ok [] => .panicked
              | .ok (pipeline :: _) =>
                match create_framebuffers env.framebufferOf image_views with
                | .error e => .failed e
                | .ok framebuffers =>
                  .built ⟨handle, images, image_views, render_pass,
                          pipeline_layout, pipeline, framebuffers⟩
  else
    .panicked

instance instDecEqExcept {ε α : Type} [DecidableEq ε] [DecidableEq α] :
    DecidableEq (Except ε α) := fun a b =>
  match a, b with
  | .error e, .error f =>
    if h : e = f then isTrue (congrArg Except.error h)
    else isFalse (fun hh => h (Except.error.inj hh))
  | .error _, .ok _ => isFalse (fun hh => Except.noConfusion hh)
  | .ok _, .error _ => isFalse (fun hh => Except.noConfusion hh)
  | .ok x, .ok y =>
    if h : x = y then isTrue (congrArg Except.ok h)
    else isFalse (fun hh => h (Except.ok.inj hh))

/-- Driver oracle for one submit-and-present cycle: the result of
`acquire_next_image` (an image index), of `queue_submit`, and of
`queue_present` (where `Ok b` reports via `b` whether the chain is
suboptimal). -/
structure DriverFrame where
  acquire : Except VkErr Nat
  submit : Except VkErr Unit
  present : Except VkErr Bool
deriving DecidableEq, Repr

/-- How one `render_object` call returns: normally, with a recoverable
error, or by panicking the process. -/
inductive StepOutcome where
  | ok
  | err (e : VkErr)
  | panic
deriving DecidableEq, Repr

/-- Result of one `render_object` call: its outcome, the engine's swapchain
field afterwards, and whether `device_wait_idle` ran before the call
returned. -/
structure RenderObjectResult where
  outcome : StepOutcome
  swapchainAfter : Option SwapChain
  waitedIdle : Bool
deriving DecidableEq, Repr

/-- `VulkanRenderingEngine::render_object` (vulkan_engine.rs lines 287-330).
`self.swapchain.as_ref().unwrap()` panics when the swapchain is absent; the
`unwrap` on `acquire_next_image` panics on an acquire error; indexing
`command_buffers[image_index]` panics out of bounds.  `queue_submit?`
returns the error early.  The present result is matched: `Ok(false)` keeps
the chain, `Ok(true)` (suboptimal) and `ERROR_OUT_OF_DATE_KHR` set the
swapchain to `None` and fall through, any other error returns early.  Only
the fall-through paths reach `device_wait_idle` before returning `Ok`. -/
def render_object (swapchain : Option SwapChain) (command_buffers : List Nat)
    (frame : DriverFrame) : RenderObjectResult :=
  match swapchain with
  | none => ⟨.panic, none, false⟩
  | some sc =>
    match frame.acquire with
    | .error _ => ⟨.panic, some sc, false⟩
    | .ok idx =>
      if idx < command_buffers.length then
        match frame.submit with
        | .error e => ⟨.err e, some sc, false⟩
        | .ok _ =>
          match frame.present with
          | .ok false => ⟨.ok, some sc, true⟩
          | .ok true => ⟨.ok, none, true⟩
          | .error .outOfDate => ⟨.ok, none, true⟩
          | .error (.other c) => ⟨.err (.other c), some sc, false⟩
      else ⟨.panic, some sc, false⟩

/-- A GPU-resident buffer as `create_command_buffers` sees it: its driver
handle and its element count. -/
structure BufferModel where
  handle : Nat
  element_count : Nat
deriving DecidableEq, Repr

/-- The clear value recorded into the render-pass begin info.  The float32
components are constants in the source, so they are modelled as naturals. -/
structure ClearColor where
  r : Nat
  g : Nat
  b : Nat
  a : Nat
deriving DecidableEq, Repr

/-- One command recorded into a command buffer, in the vocabulary of the
calls `create_command_buffers` makes between begin and end of recording. -/
inductive RecCmd where
  | beginRenderPass (render_pass framebuffer : Nat) (extentW extentH : Nat)
      (clear : ClearColor)
  | bindPipeline (pipeline : Nat)
  | bindVertexBuffer (buffer offset : Nat)
  | bindIndexBuffer (buffer offset : Nat) (indexTypeUint32 : Bool)
  | drawIndexed (indexCount instanceCount firstIndex vertexOffset firstInstance : Nat)
  | endRenderPass
deriving DecidableEq, Repr

/-- Driver oracle for a `create_command_buffers` call: the handles returned
by `allocate_command_buffers`, the per-buffer results of begin and end of
recording, and the surface-capability query (whose `current_extent` sizes
the render area). -/
structure CmdBufEnv where
  alloc : Except VkErr (List Nat)
  beginResult : Nat → Except VkErr Unit
  endResult : Nat → Except VkErr Unit
  caps : Except VkErr (Nat × Nat)

/-- Outcome of `create_command_buffers`: a panic, a propagated driver error,
or success carrying the count of primary buffers requested from the
allocator and each returned buffer paired with the commands recorded into
it. -/
inductive CCBResult where
  | panicked
  | failed (e : VkErr)
  | ok (requested : Nat) (buffers : List (Nat × List RecCmd))
deriving DecidableEq, Repr

/-- Recording of one command buffer against one framebuffer (the body of the
zip loop in vulkan_engine.rs lines 221-282): begin recording, query the
capabilities for the render area, then record begin-render-pass with clear
value (0,0,0,1), bind pipeline, bind vertex buffer at offset 0, bind index
buffer at offset 0 with 32-bit indices, draw the full index count as one
instance, end render pass, and end recording. -/
def recordOne (env : CmdBufEnv) (sc : SwapChain) (vb ib : BufferModel)
    (cb fb : Nat) : Except VkErr (List RecCmd) :=
  match env.beginResult cb with
  | .error e => .error e
  | .ok _ =>
    match env.caps with
    | .error e => .error e
    | .ok ext =>
      match env.endResult cb with
      | .error e => .error e
      | .ok _ =>
        .ok [.beginRenderPass sc.render_pass fb ext.1 ext.2 ⟨0, 0, 0, 1⟩,
             .bindPipeline sc.pipeline,
             .bindVertexBuffer vb.handle 0,
             .bindIndexBuffer ib.handle 0 true,
             .drawIndexed ib.element_count 1 0 0 0,
             .endRenderPass]

/-- The recording loop over the zipped (command buffer, framebuffer) pairs;
the first driver error aborts the whole call. -/
def recordAll (env : CmdBufEnv) (sc : SwapChain) (vb ib : BufferModel) :
    List (Nat × Nat) → Except VkErr (List (Nat × List RecCmd))
  | [] => .ok []
  | (cb, fb) :: rest =>
    match recordOne env sc vb ib cb fb with
    | .error e => .error e
    | .ok cmds =>
      match recordAll env sc vb ib rest with
      | .error e => .error e
      | .ok others => .ok ((cb, cmds) :: others)

/-- `VulkanRenderingEngine::create_command_buffers` (vulkan_engine.rs lines
206-285).  `self.swapchain.as_ref().unwrap()` panics when the swapchain is
absent.  Allocation requests exactly one primary buffer per framebuffer;
the returned buffers are zipped with the framebuffers and recorded in
order. -/
def create_command_buffers (swapchain : Option SwapChain) (vb ib : BufferModel)
    (env : CmdBufEnv) : CCBResult :=
  match swapchain with
  | none => .panicked
  | some sc =>
    match env.alloc with
    | .error e => .failed e
    | .ok handles =>
      match recordAll env sc vb ib (handles.zip sc.framebuffers) with
      | .error e => .failed e
      | .ok recorded => .ok sc.framebuffers.length recorded

/-- Observable events of one `render` call, in the order the engine performs
them: the GPU-idle wait and capability query and chain build of
`recreate_swapchain`, the command-buffer re-recording per drawable entity,
and the submit-and-present step per drawable entity. -/
inductive Event where
  | waitIdle
  | queryCapabilities
  | buildSwapchain
  | recordCommandBuffers (entity : Nat)
  | submitPresent (entity : Nat)
deriving DecidableEq, Repr

/-- Outcome of a `render` call (or of its drawable loop): either the process
panicked after the listed events, or the call completed with the events, the
final swapchain field, and the errors logged by the per-drawable loop. -/
inductive LoopResult where
  | panicked (events : List Event)
  | done (events : List Event) (finalSwapchain : Option SwapChain) (log : List VkErr)
deriving DecidableEq, Repr

/-- Prefix earlier events onto a loop result. -/
def LoopResult.prepend (evs : List Event) : LoopResult → LoopResult
  | .panicked e => .panicked (evs ++ e)
  | .done e sw log => .done (evs ++ e) sw log

/-- The per-drawable loop of `render` (vulkan_engine.rs lines 137-147):
entities without a `VulkanRenderObject` are skipped; for each drawable,
`render_object` runs on its command buffers, an `Ok` continues silently, an
`Err` is printed (logged) and the loop continues, and a panic aborts the
process.  The swapchain state threads through because a present result may
discard it. -/
def renderLoop (frames : Nat → DriverFrame) :
    Option SwapChain → List (Option (List Nat)) → Nat → LoopResult
  | sw, [], _ => .done [] sw []
  | sw, none :: rest, i => renderLoop frames sw rest (i + 1)
  | sw, some cbs :: rest, i =>
    let r := render_object sw cbs (frames i)
    match r.outcome with
    | .panic => .panicked [.submitPresent i]
    | .ok =>
      match renderLoop frames r.swapchainAfter rest (i + 1) with
      | .panicked evs => .panicked (.submitPresent i :: evs)
      | .done evs sw2 log => .done (.submitPresent i :: evs) sw2 log
    | .err e =>
      match renderLoop frames r.swapchainAfter rest (i + 1) with
      | .panicked evs => .panicked (.submitPresent i :: evs)
      | .done evs sw2 log => .done (.submitPresent i :: evs) sw2 (e :: log)

/-- The re-recording pass of `render` (vulkan_engine.rs lines 130-134):
for every entity with a `VulkanRenderObject`,
`recreate_command_buffers(..).unwrap()` replaces its command buffers; a
failure panics, modelled by `none` in the second component.  The first
component lists the recording events issued so far. -/
def recreateAll (recreate : Nat → Except VkErr (List Nat)) :
    List (Option (List Nat)) → Nat →
      List Event × Option (List (Option (List Nat)))
  | [], _ => ([], some [])
  | none :: rest, i =>
    let (evs, r) := recreateAll recreate rest (i + 1)
    (evs, r.map (none :: ·))
  | some _ :: rest, i =>
    match recreate i with
    | .error _ => ([.recordCommandBuffers i], none)
    | .ok cbs =>
      let (evs, r) := recreateAll recreate rest (i + 1)
      (.recordCommandBuffers i :: evs, r.map (some cbs :: ·))

/-- Indices of the entities carrying a `VulkanRenderObject`, counting from
`i`. -/
def drawableIdxs : List (Option (List Nat)) → Nat → List Nat
  | [], _ => []
  | none :: rest, i => drawableIdxs rest (i + 1)
  | some _ :: rest, i => i :: drawableIdxs rest (i + 1)

/-- Driver oracle for one `render` call: the capability query and build
oracles used when the swapchain must be rebuilt, the per-entity result of
re-recording command buffers, and the per-entity driver frame for the
submit-and-present step. -/
structure RenderEnv where
  caps : Except VkErr Unit
  build : BuildEnv
  recreate : Nat → Except VkErr (List Nat)
  frames : Nat → DriverFrame

/-- `VulkanRenderingEngine::render` (vulkan_engine.rs lines 127-148) with
`recreate_swapchain` (lines 172-188) inlined.  When the swapchain is absent:
`device_wait_idle` runs first, then the capability snapshot is queried, then
`SwapChain::new` builds the chain (the engine holds the device `Rc`, so the
weak upgrade inside succeeds), then every drawable's command buffers are
re-recorded; each of these is followed by `.unwrap()` in the source, so any
failure panics.  Only after all of that does the per-drawable
submit-and-present loop run.  When the swapchain is present the loop runs
directly. -/
def render (swapchain : Option SwapChain) (scene : List (Option (List Nat)))
    (env : RenderEnv) : LoopResult :=
  match swapchain with
  | some _ => renderLoop env.frames swapchain scene 0
  | none =>
    match env.caps with
    | .error _ => .panicked [.waitIdle, .queryCapabilities]
    | .ok _ =>
      match SwapChain.new true env.build with
      | .panicked => .panicked [.waitIdle, .queryCapabilities, .buildSwapchain]
      | .failed _ => .panicked [.waitIdle, .queryCapabilities, .buildSwapchain]
      | .built sc =>
        match recreateAll env.recreate scene 0 with
        | (evs, none) =>
          .panicked ([.waitIdle, .queryCapabilities, .buildSwapchain] ++ evs)
        | (evs, some scene2) =>
          (renderLoop env.frames (some sc) scene2 0).prepend
            ([.waitIdle, .queryCapabilities, .buildSwapchain] ++ evs)

/-! ## Helper lemmas -/

theorem mapMExcept_length (f : α → Except VkErr β) :
    ∀ (l : List α) (l' : List β), mapMExcept f l = .ok l' → l'.length = l.length := by
  intro l
  induction l with
  | nil =>
    intro l' h
    simp [mapMExcept] at h
    simp [← h]
  | cons a as ih =>
    intro l' h
    simp only [mapMExcept] at h
    cases hfa : f a with
    | error e => rw [hfa] at h; exact absurd h (by simp)
    | ok b =>
      rw [hfa] at h
      cases hrest : mapMExcept f as with
      | error e => rw [hrest] at h; exact absurd h (by simp)
      | ok bs =>
        rw [hrest] at h
        simp at h
        subst h
        simp [ih bs hrest]

theorem foldl_issue_map (g : Nat → DestroyCall) :
    ∀ (xs : List Nat) (log : List DestroyCall),
      xs.foldl (fun l x => issue l (g x)) log = log ++ xs.map g := by
  intro xs
  induction xs with
  | nil => intro log; simp
  | cons x xs ih =>
    intro log
    simp only [List.foldl_cons, List.map_cons]
    rw [ih]
    simp [issue]

/-! ## Claim C1: SwapChain teardown order -/

/-- Claim C1, counterexample: at a concrete chain with pairwise distinct
handles, the destroy trace that `SwapChain.drop` issues differs from the
order the spec claims (framebuffers, pipeline, pipeline layout, render pass,
image views, chain handle): the code destroys the pipeline layout and the
render pass before the pipeline. -/
theorem swapchain_drop_not_spec_order :
    SwapChain.drop ⟨1, [2], [3], 4, 5, 6, [7]⟩ true [] ≠
      some (specTeardownOrder ⟨1, [2], [3], 4, 5, 6, [7]⟩) := by
  decide

/-- Claim C1 (amended): when the device reference resolves, the teardown of
a `SwapChain` issues its destroy calls in exactly this order: all
framebuffers first, then the pipeline layout, then the render pass, then
the pipeline, then all image views, then the chain handle. -/
theorem swapchain_drop_trace (sc : SwapChain) (log : List DestroyCall) :
    sc.drop true log =
      some (log ++ sc.framebuffers.map .framebuffer
        ++ [.pipelineLayout sc.pipeline_layout, .renderPass sc.render_pass,
            .pipeline sc.pipeline]
        ++ sc.image_views.map .imageView
        ++ [.swapchain sc.handle]) := by
  simp only [SwapChain.drop, if_pos rfl]
  rw [foldl_issue_map, foldl_issue_map]
  simp [issue]

/-! ## Claim C8: dead device reference at teardown is fatal -/

/-- Claim C8: if the SwapChain's non-owning device reference cannot be
resolved during teardown, the `unwrap` panics — teardown returns no destroy
trace and there is no recoverable-error outcome.  The liveness of the device
is an input of the teardown precisely because the reference is non-owning:
nothing in the `SwapChain` value keeps the device alive. -/
theorem swapchain_drop_dead_device_panics (sc : SwapChain) (log : List DestroyCall) :
    sc.drop false log = none := by
  simp [SwapChain.drop]

/-! ## Claim C4: counting invariant of SwapChain construction -/

/-- Claim C4: every successfully built `SwapChain` has exactly one image
view per image retrieved from the chain and exactly one framebuffer per
image view. -/
theorem swapchain_new_counts (alive : Bool) (env : BuildEnv) (sc : SwapChain)
    (h : SwapChain.new alive env = .built sc) :
    sc.image_views.length = sc.images.length ∧
      sc.framebuffers.length = sc.image_views.length := by
  unfold SwapChain.new at h
  cases alive with
  | false => exact absurd h (by simp)
  | true =>
    rw [if_pos rfl] at h
    cases h1 : env.createSwapchain with
    | error e => simp only [h1] at h; exact absurd h (by simp)
    | ok handle =>
      simp only [h1] at h
      cases h2 : env.getImages with
      | error e => simp only [h2] at h; exact absurd h (by simp)
      | ok images =>
        simp only [h2] at h
        cases h3 : create_image_views env.viewOf images with
        | error e => simp only [h3] at h; exact absurd h (by simp)
        | ok views =>
          simp only [h3] at h
          cases h4 : env.createRenderPass with
          | error e => simp only [h4] at h; exact absurd h (by simp)
          | ok rp =>
            simp only [h4] at h
            cases h5 : env.createPipelineLayout with
            | error e => simp only [h5] at h; exact absurd h (by simp)
            | ok pl =>
              simp only [h5] at h
              cases h6 : env.createPipeline with
              | error e => simp only [h6] at h; exact absurd h (by simp)
              | ok ps =>
                simp only [h6] at h
                cases ps with
                | nil => exact absurd h (by simp)
                | cons p ptl =>
                  cases h7 : create_framebuffers env.framebufferOf views with
                  | error e => simp only [h7] at h; exact absurd h (by simp)
                  | ok fbs =>
                    simp only [h7, BuildResult.built.injEq] at h
                    subst h
                    exact ⟨mapMExcept_length env.viewOf images views h3,
                      mapMExcept_length env.framebufferOf views fbs h7⟩

/-- Claim C4, witness: a concrete driver behaviour building a chain with one
image, one view, one framebuffer. -/
theorem swapchain_new_counts_witness :
    (SwapChain.mk 1 [2] [12] 4 5 6 [32]).image_views.length =
        (SwapChain.mk 1 [2] [12] 4 5 6 [32]).images.length ∧
      (SwapChain.mk 1 [2] [12] 4 5 6 [32]).framebuffers.length =
        (SwapChain.mk 1 [2] [12] 4 5 6 [32]).image_views.length :=
  swapchain_new_counts true
    ⟨.ok 1, .ok [2], fun i => .ok (i + 10), .ok 4, .ok 5, .ok [6],
     fun v => .ok (v + 20)⟩
    (SwapChain.mk 1 [2] [12] 4 5 6 [32]) rfl

/-! ## Claim C9: create_command_buffers with an absent swapchain panics -/

/-- Claim C9: calling `create_command_buffers` while the swapchain is absent
panics (the source unwraps the `Option`), for every buffer pair and every
driver behaviour — it never returns a driver error in that state. -/
theorem create_command_buffers_absent_panics (vb ib : BufferModel) (env : CmdBufEnv) :
    create_command_buffers none vb ib env = .panicked :=
  rfl

/-! ## Claim C2: stale present results discard the chain, other errors propagate -/

/-- Claim C2: in a submit-and-present cycle whose acquire and submit succeed,
a present result of suboptimal (`Ok(true)`) or out-of-date discards the
SwapChain and the step returns success, while any other present error is
returned to the caller and leaves the SwapChain present. -/
theorem render_object_present_staleness (sc : SwapChain) (cbs : List Nat)
    (idx : Nat) (p : Except VkErr Bool) (hidx : idx < cbs.length) :
    ((p = .ok true ∨ p = .error .outOfDate) →
        render_object (some sc) cbs ⟨.ok idx, .ok (), p⟩ = ⟨.ok, none, true⟩) ∧
      (∀ c, p = .error (.other c) →
        render_object (some sc) cbs ⟨.ok idx, .ok (), p⟩ =
          ⟨.err (.other c), some sc, false⟩) := by
  constructor
  · rintro (rfl | rfl) <;> simp [render_object, hidx]
  · rintro c rfl
    simp [render_object, hidx]

/-- Claim C2, witness: a concrete suboptimal present on a one-buffer chain
discards the SwapChain and succeeds. -/
theorem render_object_present_staleness_witness :
    render_object (some ⟨1, [2], [3], 4, 5, 6, [7]⟩) [5]
        ⟨.ok 0, .ok (), .ok true⟩ = ⟨.ok, none, true⟩ :=
  (render_object_present_staleness ⟨1, [2], [3], 4, 5, 6, [7]⟩ [5] 0 (.ok true)
    (by decide)).1 (Or.inl rfl)

/-! ## Claim C7: GPU-idle wait before the step returns -/

/-- Claim C7, counterexample: a concrete cycle in which the submit fails
returns its error to the caller without ever reaching `device_wait_idle` —
so not every submit/present cycle blocks on GPU idle before returning. -/
theorem render_object_error_skips_wait :
    (render_object (some ⟨2, [], [], 0, 0, 0, []⟩) [3]
        ⟨.ok 0, .error (.other 1), .ok false⟩).waitedIdle = false ∧
      (render_object (some ⟨2, [], [], 0, 0, 0, []⟩) [3]
        ⟨.ok 0, .error (.other 1), .ok false⟩).outcome = .err (.other 1) :=
  ⟨rfl, rfl⟩

/-- Claim C7 (amended): every submit/present cycle that returns success —
including the cycles whose present result discards the SwapChain — blocks on
GPU idle before returning control; cycles that return an error (a submit
failure, or a present error other than suboptimal/out-of-date) return
early without the idle wait. -/
theorem render_object_ok_waits_idle (sw : Option SwapChain) (cbs : List Nat)
    (f : DriverFrame) (h : (render_object sw cbs f).outcome = .ok) :
    (render_object sw cbs f).waitedIdle = true := by
  unfold render_object at h ⊢
  cases sw with
  | none => exact absurd h (by simp)
  | some sc =>
    cases f with
    | mk acq sub pres =>
      cases acq with
      | error e => exact absurd h (by simp)
      | ok idx =>
        by_cases hlt : idx < cbs.length
        · simp only [if_pos hlt] at h ⊢
          cases sub with
          | error e => exact absurd h (by simp)
          | ok u =>
            cases pres with
            | ok b => cases b <;> rfl
            | error e =>
              cases e with
              | outOfDate => rfl
              | other c => exact absurd h (by simp)
        · simp only [if_neg hlt] at h
          exact absurd h (by simp)

/-- Claim C7, witness: a concrete fully successful cycle reaches the idle
wait. -/
theorem render_object_ok_waits_idle_witness :
    (render_object (some ⟨2, [], [], 0, 0, 0, []⟩) [3]
        ⟨.ok 0, .ok (), .ok false⟩).waitedIdle = true :=
  render_object_ok_waits_idle (some ⟨2, [], [], 0, 0, 0, []⟩) [3]
    ⟨.ok 0, .ok (), .ok false⟩ rfl

/-! ## Claim C3: per-drawable failure handling in the render loop -/

theorem render_object_err_swapchain (sw : Option SwapChain) (cbs : List Nat)
    (f : DriverFrame) (e : VkErr) (h : (render_object sw cbs f).outcome = .err e) :
    (render_object sw cbs f).swapchainAfter = sw := by
  unfold render_object at h ⊢
  cases sw with
  | none => exact absurd h (by simp)
  | some sc =>
    cases f with
    | mk acq sub pres =>
      cases acq with
      | error e2 => exact absurd h (by simp)
      | ok idx =>
        by_cases hlt : idx < cbs.length
        · simp only [if_pos hlt] at h ⊢
          cases sub with
          | error e2 => rfl
          | ok u =>
            cases pres with
            | ok b => cases b <;> exact absurd h (by simp)
            | error e2 =>
              cases e2 with
              | outOfDate => exact absurd h (by simp)
              | other c => rfl
        · simp only [if_neg hlt]

/-- Claim C3, counterexample: with a present SwapChain and a single drawable
whose acquire call fails, the failure of the submit-and-present step is not
logged and skipped — the `unwrap` on `acquire_next_image` panics the whole
process. -/
theorem render_acquire_failure_crashes :
    render (some ⟨9, [], [], 0, 0, 0, []⟩) [some [4]]
        ⟨.ok (), ⟨.ok 0, .ok [], fun _ => .ok 0, .ok 0, .ok 0, .ok [0],
          fun _ => .ok 0⟩,
         fun _ => .ok [], fun _ => ⟨.error (.other 0), .ok (), .ok false⟩⟩ =
      .panicked [.submitPresent 0] :=
  rfl

/-- Claim C3 (amended): failures that the submit-and-present step surfaces
as errors (a submit failure, or a present error other than
suboptimal/out-of-date) are logged and leave the loop running, so whenever
the drawable loop completes, every drawable entity received its
submit-and-present step; a failure inside image acquisition, however,
panics the process instead of being logged. -/
theorem render_loop_err_logged_and_continues :
    (∀ (frames : Nat → DriverFrame) (sw : Option SwapChain) (cbs : List Nat)
        (rest : List (Option (List Nat))) (i : Nat) (e : VkErr),
      (render_object sw cbs (frames i)).outcome = .err e →
      renderLoop frames sw (some cbs :: rest) i =
        (match renderLoop frames sw rest (i + 1) with
         | .panicked evs => .panicked (.submitPresent i :: evs)
         | .done evs sw2 log => .done (.submitPresent i :: evs) sw2 (e :: log))) ∧
    (∀ (frames : Nat → DriverFrame) (sw : Option SwapChain)
        (items : List (Option (List Nat))) (i : Nat) (evs : List Event)
        (sw2 : Option SwapChain) (log : List VkErr),
      renderLoop frames sw items i = .done evs sw2 log →
      ∀ (j : Nat) (hj : j < items.length),
        (items.get ⟨j, hj⟩).isSome → Event.submitPresent (i + j) ∈ evs) := by
  constructor
  · intro frames sw cbs rest i e h
    have hsw := render_object_err_swapchain sw cbs (frames i) e h
    simp only [renderLoop, h, hsw]
  · intro frames sw items
    induction items generalizing sw with
    | nil =>
      intro i evs sw2 log h j hj
      exact absurd hj (by simp)
    | cons head tail ih =>
      intro i evs sw2 log h j hj hsome
      cases head with
      | none =>
        simp only [renderLoop] at h
        cases j with
        | zero => simp [List.get] at hsome
        | succ j2 =>
          have hj2 : j2 < tail.length := by simp at hj; omega
          have hs2 : (tail.get ⟨j2, hj2⟩).isSome = true := by
            simpa using hsome
          have hmem := ih sw (i + 1) evs sw2 log h j2 hj2 hs2
          have harith : i + 1 + j2 = i + (j2 + 1) := by omega
          rwa [harith] at hmem
      | some cbs =>
        cases hout : (render_object sw cbs (frames i)).outcome with
        | panic => simp [renderLoop, hout] at h
        | ok =>
          simp only [renderLoop, hout] at h
          cases hrec : renderLoop frames
              (render_object sw cbs (frames i)).swapchainAfter tail (i + 1) with
          | panicked evs2 => rw [hrec] at h; exact absurd h (by simp)
          | done evs2 swB logB =>
            rw [hrec] at h
            simp only [LoopResult.done.injEq] at h
            obtain ⟨hevs, hswB, hlogB⟩ := h
            subst hevs
            cases j with
            | zero => simp
            | succ j2 =>
              have hj2 : j2 < tail.length := by simp at hj; omega
              have hs2 : (tail.get ⟨j2, hj2⟩).isSome = true := by
                simpa using hsome
              have hmem := ih _ (i + 1) evs2 swB logB hrec j2 hj2 hs2
              have harith : i + 1 + j2 = i + (j2 + 1) := by omega
              rw [harith] at hmem
              exact List.mem_cons_of_mem _ hmem
        | err e =>
          simp only [renderLoop, hout] at h
          cases hrec : renderLoop frames
              (render_object sw cbs (frames i)).swapchainAfter tail (i + 1) with
          | panicked evs2 => rw [hrec] at h; exact absurd h (by simp)
          | done evs2 swB logB =>
            rw [hrec] at h
            simp only [LoopResult.done.injEq] at h
            obtain ⟨hevs, hswB, hlogB⟩ := h
            subst hevs
            cases j with
            | zero => simp
            | succ j2 =>
              have hj2 : j2 < tail.length := by simp at hj; omega
              have hs2 : (tail.get ⟨j2, hj2⟩).isSome = true := by
                simpa using hsome
              have hmem := ih _ (i + 1) evs2 swB logB hrec j2 hj2 hs2
              have harith : i + 1 + j2 = i + (j2 + 1) := by omega
              rw [harith] at hmem
              exact List.mem_cons_of_mem _ hmem

/-- Claim C3, witness: a concrete one-drawable loop whose submit fails logs
the error and completes with the SwapChain intact. -/
theorem render_loop_err_logged_witness :
    renderLoop (fun _ => ⟨.ok 0, .error (.other 2), .ok false⟩)
        (some ⟨8, [], [], 0, 0, 0, []⟩) [some [4]] 0 =
      .done [.submitPresent 0] (some ⟨8, [], [], 0, 0, 0, []⟩) [.other 2] := by
  have h := render_loop_err_logged_and_continues.1
    (fun _ => ⟨.ok 0, .error (.other 2), .ok false⟩)
    (some ⟨8, [], [], 0, 0, 0, []⟩) [4] [] 0 (.other 2) rfl
  simpa using h

/-! ## Claim C6: render while the swapchain is absent rebuilds first -/

theorem recreateAll_events (f : Nat → Except VkErr (List Nat)) :
    ∀ (items : List (Option (List Nat))) (i : Nat) (evs : List Event)
      (scene2 : List (Option (List Nat))),
      recreateAll f items i = (evs, some scene2) →
      evs = (drawableIdxs items i).map Event.recordCommandBuffers := by
  intro items
  induction items with
  | nil =>
    intro i evs scene2 h
    simp only [recreateAll, Prod.mk.injEq] at h
    simp [drawableIdxs, ← h.1]
  | cons head tail ih =>
    intro i evs scene2 h
    cases head with
    | none =>
      rcases hrec : recreateAll f tail (i + 1) with ⟨evs3, r⟩
      simp only [recreateAll, hrec] at h
      cases r with
      | none => simp at h
      | some s2 =>
        simp only [Option.map_some', Prod.mk.injEq] at h
        obtain ⟨he, _⟩ := h
        subst he
        simp only [drawableIdxs]
        exact ih (i + 1) evs3 s2 (by rw [hrec])
    | some cbs =>
      cases hf : f i with
      | error e =>
        simp only [recreateAll, hf] at h
        simp at h
      | ok cbs2 =>
        rcases hrec : recreateAll f tail (i + 1) with ⟨evs3, r⟩
        simp only [recreateAll, hf, hrec] at h
        cases r with
        | none => simp at h
        | some s2 =>
          simp only [Option.map_some', Prod.mk.injEq] at h
          obtain ⟨he, _⟩ := h
          subst he
          simp only [drawableIdxs, List.map_cons]
          rw [ih (i + 1) evs3 s2 (by rw [hrec])]

/-- Claim C6: a `render` call that finds the SwapChain absent first blocks
on GPU idle, then takes a fresh capability snapshot, then builds the new
chain, then re-records command buffers for every drawable entity, and only
after all of that does it run the per-drawable submit-and-present loop: the
rebuild prefix of the event trace contains no submit-and-present event. -/
theorem render_absent_rebuilds_first (scene : List (Option (List Nat)))
    (env : RenderEnv) (sc : SwapChain) (evs : List Event)
    (scene2 : List (Option (List Nat)))
    (hc : env.caps = .ok ())
    (hb : SwapChain.new true env.build = .built sc)
    (hr : recreateAll env.recreate scene 0 = (evs, some scene2)) :
    render none scene env =
      (renderLoop env.frames (some sc) scene2 0).prepend
        ([.waitIdle, .queryCapabilities, .buildSwapchain] ++ evs) ∧
      evs = (drawableIdxs scene 0).map Event.recordCommandBuffers ∧
      ∀ j, Event.submitPresent j ∉
        ([Event.waitIdle, Event.queryCapabilities, Event.buildSwapchain] ++ evs) := by
  have hevst := recreateAll_events env.recreate scene 0 evs scene2 hr
  refine ⟨?_, hevst, ?_⟩
  · simp only [render, hc, hb, hr]
  · intro j hmem
    subst hevst
    simp [List.mem_map] at hmem

/-- Claim C6, witness: a concrete absent-swapchain render with one drawable
rebuilds, re-records, and only then submits. -/
theorem render_absent_rebuilds_first_witness :
    render none [some [1], none]
        ⟨.ok (), ⟨.ok 21, .ok [22], fun i => .ok (i + 1), .ok 24, .ok 25,
          .ok [26], fun v => .ok (v + 2)⟩,
         fun _ => .ok [7], fun _ => ⟨.ok 0, .ok (), .ok false⟩⟩ =
      (renderLoop (fun _ => ⟨.ok 0, .ok (), .ok false⟩)
        (some ⟨21, [22], [23], 24, 25, 26, [25]⟩) [some [7], none] 0).prepend
        ([.waitIdle, .queryCapabilities, .buildSwapchain] ++
          [.recordCommandBuffers 0]) :=
  (render_absent_rebuilds_first [some [1], none]
    ⟨.ok (), ⟨.ok 21, .ok [22], fun i => .ok (i + 1), .ok 24, .ok 25,
      .ok [26], fun v => .ok (v + 2)⟩,
     fun _ => .ok [7], fun _ => ⟨.ok 0, .ok (), .ok false⟩⟩
    ⟨21, [22], [23], 24, 25, 26, [25]⟩ [.recordCommandBuffers 0]
    [some [7], none] rfl rfl rfl).1

/-! ## Claim C10: rebuild or re-record failures during render panic -/

/-- Claim C10: during `render` with the SwapChain absent, a failure of the
capability query, of the SwapChain rebuild, or of re-recording any
drawable's command buffers panics the process via `unwrap` — none of them is
logged and skipped. -/
theorem render_rebuild_failure_panics :
    (∀ (scene : List (Option (List Nat))) (env : RenderEnv) (e : VkErr),
      env.caps = .error e →
      render none scene env = .panicked [.waitIdle, .queryCapabilities]) ∧
    (∀ (scene : List (Option (List Nat))) (env : RenderEnv) (e : VkErr),
      env.caps = .ok () → SwapChain.new true env.build = .failed e →
      render none scene env =
        .panicked [.waitIdle, .queryCapabilities, .buildSwapchain]) ∧
    (∀ (scene : List (Option (List Nat))) (env : RenderEnv) (sc : SwapChain)
        (evs : List Event),
      env.caps = .ok () → SwapChain.new true env.build = .built sc →
      recreateAll env.recreate scene 0 = (evs, none) →
      render none scene env =
        .panicked ([.waitIdle, .queryCapabilities, .buildSwapchain] ++ evs)) := by
  refine ⟨?_, ?_, ?_⟩
  · intro scene env e hc
    simp only [render, hc]
  · intro scene env e hc hb
    simp only [render, hc, hb]
  · intro scene env sc evs hc hb hr
    simp only [render, hc, hb, hr]

/-- Claim C10, witness: a concrete capability-query failure panics the
render call. -/
theorem render_rebuild_failure_panics_witness :
    render none []
        ⟨.error (.other 3), ⟨.ok 0, .ok [], fun _ => .ok 0, .ok 0, .ok 0,
          .ok [0], fun _ => .ok 0⟩,
         fun _ => .ok [], fun _ => ⟨.ok 0, .ok (), .ok false⟩⟩ =
      .panicked [.waitIdle, .queryCapabilities] :=
  render_rebuild_failure_panics.1 []
    ⟨.error (.other 3), ⟨.ok 0, .ok [], fun _ => .ok 0, .ok 0, .ok 0,
      .ok [0], fun _ => .ok 0⟩,
     fun _ => .ok [], fun _ => ⟨.ok 0, .ok (), .ok false⟩⟩
    (.other 3) rfl

/-! ## Claim C5: command-buffer allocation and recording -/

theorem recordAll_all_ok (env : CmdBufEnv) (sc : SwapChain) (vb ib : BufferModel)
    (ext : Nat × Nat)
    (hb : ∀ cb, env.beginResult cb = .ok ())
    (he : ∀ cb, env.endResult cb = .ok ())
    (hc : env.caps = .ok ext) :
    ∀ pairs : List (Nat × Nat),
      recordAll env sc vb ib pairs =
        .ok (pairs.map fun p =>
          (p.1, [RecCmd.beginRenderPass sc.render_pass p.2 ext.1 ext.2 ⟨0, 0, 0, 1⟩,
                 RecCmd.bindPipeline sc.pipeline,
                 RecCmd.bindVertexBuffer vb.handle 0,
                 RecCmd.bindIndexBuffer ib.handle 0 true,
                 RecCmd.drawIndexed ib.element_count 1 0 0 0,
                 RecCmd.endRenderPass])) := by
  intro pairs
  induction pairs with
  | nil => rfl
  | cons p rest ih =>
    rcases p with ⟨cb, fb⟩
    simp only [recordAll, recordOne, hb cb, hc, he cb, ih, List.map_cons]

theorem recordAll_error (env : CmdBufEnv) (sc : SwapChain) (vb ib : BufferModel)
    (cb fb : Nat) (rest : List (Nat × Nat)) (e : VkErr)
    (hfail : recordOne env sc vb ib cb fb = .error e) :
    ∀ pre : List (Nat × Nat),
      (∀ p ∈ pre, ∃ cmds, recordOne env sc vb ib p.1 p.2 = .ok cmds) →
      recordAll env sc vb ib (pre ++ (cb, fb) :: rest) = .error e := by
  intro pre
  induction pre with
  | nil =>
    intro _
    simp only [List.nil_append, recordAll, hfail]
  | cons q pre2 ih =>
    intro hpre
    rcases q with ⟨q1, q2⟩
    obtain ⟨cmds, hq⟩ := hpre (q1, q2) (List.mem_cons_self _ _)
    have hrest := ih fun p hp => hpre p (List.mem_cons_of_mem _ hp)
    simp only [List.cons_append, recordAll, hq, List.append_eq, hrest]

/-- Claim C5: with a present SwapChain of F framebuffers and a driver that
honours the allocation, `create_command_buffers` requests exactly F primary
buffers and records into the i-th buffer, in order: begin render pass over
the i-th framebuffer with clear color (0,0,0,1), bind the graphics pipeline,
bind the vertex buffer at offset 0, bind the index buffer at offset 0 with
32-bit indices, draw the index buffer's full element count as one instance,
end render pass, end recording; and any recording failure — of begin
recording, of the in-loop capability query, or of end recording, on any
buffer of the batch — aborts the call with that driver error. -/
theorem create_command_buffers_records (sc : SwapChain) :
    (∀ (vb ib : BufferModel) (env : CmdBufEnv) (handles : List Nat)
        (ext : Nat × Nat),
      env.alloc = .ok handles →
      handles.length = sc.framebuffers.length →
      (∀ cb, env.beginResult cb = .ok ()) →
      (∀ cb, env.endResult cb = .ok ()) →
      env.caps = .ok ext →
      create_command_buffers (some sc) vb ib env =
        .ok sc.framebuffers.length
          ((handles.zip sc.framebuffers).map fun p =>
            (p.1, [RecCmd.beginRenderPass sc.render_pass p.2 ext.1 ext.2
                     ⟨0, 0, 0, 1⟩,
                   RecCmd.bindPipeline sc.pipeline,
                   RecCmd.bindVertexBuffer vb.handle 0,
                   RecCmd.bindIndexBuffer ib.handle 0 true,
                   RecCmd.drawIndexed ib.element_count 1 0 0 0,
                   RecCmd.endRenderPass])) ∧
        (handles.zip sc.framebuffers).length = sc.framebuffers.length) ∧
    (∀ (vb ib : BufferModel) (env : CmdBufEnv) (e : VkErr) (handles : List Nat)
        (pre : List (Nat × Nat)) (cb fb : Nat) (rest : List (Nat × Nat)),
      env.alloc = .ok handles →
      handles.zip sc.framebuffers = pre ++ (cb, fb) :: rest →
      (∀ p ∈ pre, ∃ cmds, recordOne env sc vb ib p.1 p.2 = .ok cmds) →
      recordOne env sc vb ib cb fb = .error e →
      create_command_buffers (some sc) vb ib env = .failed e) ∧
    (∀ (vb ib : BufferModel) (env : CmdBufEnv) (cb fb : Nat) (e : VkErr),
      (env.beginResult cb = .error e ∨
        (env.beginResult cb = .ok () ∧ env.caps = .error e) ∨
        (env.beginResult cb = .ok () ∧ (∃ ext, env.caps = .ok ext) ∧
          env.endResult cb = .error e)) →
      recordOne env sc vb ib cb fb = .error e) := by
  refine ⟨?_, ?_, ?_⟩
  · intro vb ib env handles ext halloc hlen hbeg hend hcaps
    constructor
    · simp only [create_command_buffers, halloc,
        recordAll_all_ok env sc vb ib ext hbeg hend hcaps]
    · simp [List.length_zip, hlen]
  · intro vb ib env e handles pre cb fb rest halloc hzip hpre hfail
    simp only [create_command_buffers, halloc, hzip,
      recordAll_error env sc vb ib cb fb rest e hfail pre hpre]
  · intro vb ib env cb fb e hdis
    rcases hdis with hb | ⟨hb, hc⟩ | ⟨hb, ⟨ext, hc⟩, hend⟩
    · simp only [recordOne, hb]
    · simp only [recordOne, hb, hc]
    · simp only [recordOne, hb, hc, hend]

/-- Claim C5, witness: a one-framebuffer chain with an all-successful driver
yields one recorded buffer with the exact command sequence. -/
theorem create_command_buffers_records_witness :
    create_command_buffers (some ⟨1, [2], [3], 13, 14, 15, [16]⟩) ⟨10, 3⟩ ⟨11, 12⟩
        ⟨.ok [9], fun _ => .ok (), fun _ => .ok (), .ok (8, 6)⟩ =
      .ok 1
        [(9, [RecCmd.beginRenderPass 13 16 8 6 ⟨0, 0, 0, 1⟩,
              RecCmd.bindPipeline 15,
              RecCmd.bindVertexBuffer 10 0,
              RecCmd.bindIndexBuffer 11 0 true,
              RecCmd.drawIndexed 12 1 0 0 0,
              RecCmd.endRenderPass])] := by
  have h := (create_command_buffers_records ⟨1, [2], [3], 13, 14, 15, [16]⟩).1
    ⟨10, 3⟩ ⟨11, 12⟩ ⟨.ok [9], fun _ => .ok (), fun _ => .ok (), .ok (8, 6)⟩
    [9] (8, 6) rfl rfl (fun _ => rfl) (fun _ => rfl) rfl
  simpa using h.1

end Radiance
